import Mathlib

/- Verification of the mange repository: a shallow embedding of the billing
   entities of src/mange/db.py and of the data-access client exercised by
   src/mange/test/test_db.py. SQLAlchemy Integer columns are modelled as Int
   and DateTime columns as Int timestamps (only their ordering matters). -/

namespace Mange

/-- Embeds the Sucursal entity of src/mange/db.py (lines 66 to 82): a branch
with a unique name, a consumption limit, a percentage surcharge, a fixed
surcharge, and the last and current meter readings. Fields not used by any
billing computation (tipo, direccion) are omitted. -/
structure Sucursal where
  id : Int
  nombre : String
  limite : Int
  porciento_extra : Int
  aumento : Int
  last_reading : Int
  reading : Int
deriving Repr, DecidableEq

/-- Embeds Sucursal.calculate of src/mange/db.py line 78:
(reading - last_reading) * (100 + porciento_extra) // 100 + aumento.
The Python floor division // on integers is Int.fdiv. -/
def Sucursal.calculate (s : Sucursal) : Int :=
  Int.fdiv ((s.reading - s.last_reading) * (100 + s.porciento_extra)) 100 + s.aumento

/-- Embeds the Sucursal.over_limit property of src/mange/db.py line 82:
max(0, reading - limite). -/
def Sucursal.over_limit (s : Sucursal) : Int :=
  max 0 (s.reading - s.limite)

/-- Embeds the Registro entity of src/mange/db.py (lines 91 to 98): a reading
record holding a reading value, the computed cost, the over-limit amount, a
date and the id of the branch it belongs to. -/
structure Registro where
  lectura : Int
  costo : Int
  sobre_limite : Int
  fecha : Int
  id_sucursal : Int
deriving Repr, DecidableEq

/-- Embeds the User entity of src/mange/db.py (lines 119 to 124): a unique
name and a plaintext password. The group link plays no part in any claim. -/
structure User where
  id : Int
  name : String
  password : String
deriving Repr, DecidableEq

/-- Embeds the Token entity of src/mange/db.py (lines 126 to 136): an opaque
value owned by exactly one user. -/
structure Token where
  value : String
  user_id : Int
deriving Repr, DecidableEq

/-- Error taxonomy of spec section 7 for the operations modelled here. -/
inductive DBError where
  | uniquenessViolation
  | authenticationError
deriving Repr, DecidableEq

/-- Authentication-relevant state of the data-access client: the persisted
users and tokens. Tokens are kept newest first. -/
structure ClientState where
  users : List User
  tokens : List Token
deriving Repr, DecidableEq

/-- Result of one liquidation: the new record, the updated branch and the
updated record table. -/
structure LiquidationResult where
  registro : Registro
  sucursal : Sucursal
  registros : List Registro
deriving Repr, DecidableEq

/-- Modelled from the spec: Client.liquidate_bill of mange/api.py is not under
src (only src/mange/test/test_db.py calls it). Spec section 4.2: compute cost
and over-limit via section 4.1 (the branch entity rule of db.py line 82),
create and persist one new Registro with that cost, over-limit amount and
date, and set last_reading to the current reading. The record keeps the
current reading as its lectura (spec section 3: a Reading Record holds the
reading value). The default date of now is passed explicitly by the caller. -/
def liquidate_bill (s : Sucursal) (regs : List Registro) (date : Int) :
    LiquidationResult :=
  let r : Registro :=
    { lectura := s.reading, costo := s.calculate, sobre_limite := s.over_limit,
      fecha := date, id_sucursal := s.id }
  { registro := r
    sucursal := { s with last_reading := s.reading }
    registros := regs ++ [r] }

/-- Modelled from the spec: Client.total_consumption of mange/api.py is not
under src. Spec section 4.3: the sum of the reading values of the given
branch records whose date lies in the inclusive window, 0 when none match. -/
def total_consumption (regs : List Registro) (s : Sucursal)
    (start_date end_date : Int) : Int :=
  ((regs.filter (fun r =>
      r.id_sucursal == s.id && start_date ≤ r.fecha && r.fecha ≤ end_date)).map
    Registro.lectura).sum

/-- Modelled from the spec: Client.over_consumption of mange/api.py is not
under src. Spec section 4.3: the records, across all branches, whose
over-limit amount is strictly positive and whose date lies in the inclusive
window, in stored order. -/
def over_consumption (regs : List Registro) (start_date end_date : Int) :
    List Registro :=
  regs.filter (fun r =>
    0 < r.sobre_limite && start_date ≤ r.fecha && r.fecha ≤ end_date)

/-- Modelled from the spec: Client.create_user of mange/api.py is not under
src. Spec section 4.4: fail with UniquenessViolation when a user with the
same name exists (the name column of db.py line 120 is unique), otherwise
persist and return the new user. -/
def create_user (st : ClientState) (new_id : Int) (name pw : String) :
    Except DBError (User × ClientState) :=
  if st.users.any (fun u => u.name == name) then
    Except.error DBError.uniquenessViolation
  else
    let u : User := { id := new_id, name := name, password := pw }
    Except.ok (u, { st with users := st.users ++ [u] })

/-- Modelled from the spec: Client.login of mange/api.py is not under src.
Spec section 4.4: look the user up by exact name and password match; on
success replace that user token with a fresh opaque value and return it; on
failure fail with AuthenticationError. The fresh value is supplied by the
caller (the source draws it from a random generator). -/
def login (st : ClientState) (fresh : String) (name pw : String) :
    Except DBError (Token × ClientState) :=
  match st.users.find? (fun u => u.name == name && u.password == pw) with
  | none => Except.error DBError.authenticationError
  | some u =>
      let t : Token := { value := fresh, user_id := u.id }
      Except.ok (t,
        { st with tokens := t :: st.tokens.filter (fun tk => tk.user_id != u.id) })

/-- The token currently held by the user with the given id, if any. -/
def token_of (st : ClientState) (uid : Int) : Option Token :=
  st.tokens.find? (fun tk => tk.user_id == uid)

end Mange

namespace Mange

/- Concrete fixtures used by witnesses and the C5 scenario. -/

/-- Branch for the claim C2 witness with its reading exactly at the limit. -/
def sucursalC2a : Sucursal :=
  { id := 1, nombre := "blobcorp", limite := 100, porciento_extra := 15,
    aumento := 20, last_reading := 0, reading := 100 }

/-- Branch for the claim C2 witness with its reading 50 over the limit. -/
def sucursalC2b : Sucursal :=
  { sucursalC2a with reading := 150 }

/-- Record outside the query window, for the claim C4 witness. -/
def registroC4 : Registro :=
  { lectura := 7, costo := 0, sobre_limite := 0, fecha := 10, id_sucursal := 1 }

/-- Branch for the claim C4 witness. -/
def sucursalC4 : Sucursal :=
  { id := 1, nombre := "w", limite := 0, porciento_extra := 15, aumento := 20,
    last_reading := 0, reading := 0 }

/-- Branch of the claim C5 scenario, as created by test_total_consumption of
src/mange/test/test_db.py line 61. -/
def sucursalC5 : Sucursal :=
  { id := 1, nombre := "blobcorp", limite := 9999, porciento_extra := 15,
    aumento := 20, last_reading := 0, reading := 100 }

/-- First liquidation of the C5 scenario: reading 150, day 1. -/
def liqC5a : LiquidationResult :=
  liquidate_bill { sucursalC5 with reading := 150 } [] 1

/-- Second liquidation of the C5 scenario: reading 300, day 2. -/
def liqC5b : LiquidationResult :=
  liquidate_bill { liqC5a.sucursal with reading := 300 } liqC5a.registros 2

/-- Third liquidation of the C5 scenario: reading 500, day 3. -/
def liqC5c : LiquidationResult :=
  liquidate_bill { liqC5b.sucursal with reading := 500 } liqC5b.registros 3

/-- Record inside the window with positive over-limit, for the C6 witness. -/
def registroC6in : Registro :=
  { lectura := 1, costo := 21, sobre_limite := 1, fecha := 2, id_sucursal := 1 }

/-- Record outside the window, for the C6 witness. -/
def registroC6out : Registro :=
  { lectura := 1, costo := 21, sobre_limite := 1, fecha := 9, id_sucursal := 1 }

/-- Record table for the C6 witness. -/
def regsC6 : List Registro := [registroC6in, registroC6out]

/-- Client state with one stored user, for the C7 witness. -/
def stC7 : ClientState :=
  { users := [{ id := 1, name := "blob", password := "doko" }], tokens := [] }

/-- Client state with one stored user, for the C8 witness. -/
def stC8 : ClientState :=
  { users := [{ id := 1, name := "blob", password := "doko" }], tokens := [] }

/-- Branch for the claim C9 witness: reading equal to last_reading. -/
def sucursalC9 : Sucursal :=
  { id := 3, nombre := "idle", limite := 10, porciento_extra := 15,
    aumento := 20, last_reading := 40, reading := 40 }

/-- Lower branch for the claim C10 witness. -/
def sucursalC10a : Sucursal :=
  { id := 4, nombre := "m", limite := 10, porciento_extra := 15, aumento := 20,
    last_reading := 0, reading := 30 }

/-- Higher branch for the claim C10 witness. -/
def sucursalC10b : Sucursal :=
  { sucursalC10a with reading := 45 }

/-- Claim C1: for every Sucursal, calculate returns the floor of
(reading - last_reading) * (100 + porciento_extra) / 100, plus aumento, with
exact integer floor-division semantics; in particular with reading 100,
last_reading 50, porciento_extra 15 and aumento 20 it returns 77. -/
theorem calculate_floor_spec (s : Sucursal) :
    s.calculate
      = ⌊(((s.reading - s.last_reading) * (100 + s.porciento_extra) : Int) : ℚ)
            / (100 : ℚ)⌋
          + s.aumento
    ∧ (Sucursal.calculate
        { id := 1, nombre := "x", limite := 1000, porciento_extra := 15,
          aumento := 20, last_reading := 50, reading := 100 }) = 77 := by
  constructor
  · unfold Sucursal.calculate
    rw [Int.fdiv_eq_ediv _ (by norm_num)]
    rw [show ((100 : ℚ)) = ((100 : ℕ) : ℚ) by norm_num]
    rw [Rat.floor_intCast_div_natCast]
    norm_num
  · decide

/-- Claim C2: for every Sucursal, over_limit equals max 0 of the raw current
reading minus limite (not the computed cost); consequently liquidating with
reading equal to limite records over-limit 0, and with reading equal to
limite plus 50 records over-limit 50. -/
theorem over_limit_raw_reading (s : Sucursal) (regs : List Registro) (d : Int) :
    s.over_limit = max 0 (s.reading - s.limite)
    ∧ (s.reading = s.limite →
        (liquidate_bill s regs d).registro.sobre_limite = 0)
    ∧ (s.reading = s.limite + 50 →
        (liquidate_bill s regs d).registro.sobre_limite = 50) := by
  refine ⟨rfl, fun h => ?_, fun h => ?_⟩
  · show max 0 (s.reading - s.limite) = 0
    omega
  · show max 0 (s.reading - s.limite) = 50
    omega

/-- Witness for claim C2 at the branches of test_liquidate_registro. -/
theorem over_limit_raw_reading_witness :
    (liquidate_bill sucursalC2a [] 0).registro.sobre_limite = 0
    ∧ (liquidate_bill sucursalC2b [] 0).registro.sobre_limite = 50 :=
  ⟨(over_limit_raw_reading sucursalC2a [] 0).2.1 (by decide),
   (over_limit_raw_reading sucursalC2b [] 0).2.2 (by decide)⟩

/-- Claim C3: one call to liquidate_bill appends exactly one new Registro
whose costo and sobre_limite come from the billing functions of 4.1 and whose
fecha is the given date, and leaves last_reading equal to the reading the
branch had at the call. -/
theorem liquidate_bill_spec (s : Sucursal) (regs : List Registro) (d : Int) :
    (liquidate_bill s regs d).registros
        = regs ++ [(liquidate_bill s regs d).registro]
    ∧ (liquidate_bill s regs d).registros.length = regs.length + 1
    ∧ (liquidate_bill s regs d).registro.costo = s.calculate
    ∧ (liquidate_bill s regs d).registro.sobre_limite = s.over_limit
    ∧ (liquidate_bill s regs d).registro.fecha = d
    ∧ (liquidate_bill s regs d).sucursal.last_reading = s.reading := by
  refine ⟨rfl, ?_, rfl, rfl, rfl, rfl⟩
  simp [liquidate_bill]

/-- Claim C4: total_consumption sums the lectura values of the given branch
records whose fecha lies in the inclusive window, and returns 0 when no
record of the branch falls in the window. -/
theorem total_consumption_spec (regs : List Registro) (s : Sucursal)
    (start_date end_date : Int) (hw : start_date ≤ end_date) :
    total_consumption regs s start_date end_date
      = ((regs.filter (fun r =>
            r.id_sucursal = s.id ∧ start_date ≤ r.fecha ∧ r.fecha ≤ end_date)).map
          Registro.lectura).sum
    ∧ ((∀ r ∈ regs,
          ¬(r.id_sucursal = s.id ∧ start_date ≤ r.fecha ∧ r.fecha ≤ end_date)) →
        total_consumption regs s start_date end_date = 0) := by
  have hfilter : regs.filter (fun r =>
        r.id_sucursal == s.id && start_date ≤ r.fecha && r.fecha ≤ end_date)
      = regs.filter (fun r =>
        r.id_sucursal = s.id ∧ start_date ≤ r.fecha ∧ r.fecha ≤ end_date) := by
    apply List.filter_congr
    intro r _
    by_cases h1 : r.id_sucursal = s.id <;>
      by_cases h2 : start_date ≤ r.fecha <;>
        by_cases h3 : r.fecha ≤ end_date <;>
          simp [h1, h2, h3]
  constructor
  · rw [total_consumption, hfilter]
  · intro hnone
    rw [total_consumption, hfilter]
    rw [List.filter_eq_nil_iff.mpr]
    · simp
    · intro r hr
      simpa using hnone r hr

/-- Witness for claim C4 on a one-record table outside the window. -/
theorem total_consumption_spec_witness :
    total_consumption [registroC4] sucursalC4 1 3 = 0 :=
  (total_consumption_spec [registroC4] sucursalC4 1 3 (by decide)).2 (by decide)

/-- Claim C5 counterexample: in the scenario of test_total_consumption
(readings 100, then liquidations at 150, 300 and 500 on days 1, 2 and 3),
total_consumption over the whole window does not return 350 under the spec
section 4.3 contract. -/
theorem total_consumption_c5_counterexample :
    total_consumption liqC5c.registros sucursalC5 1 3 ≠ 350 := by decide

/-- Claim C5 amended: in that scenario total_consumption, defined per spec
section 4.3 as the sum of the in-window recorded readings 150, 300 and 500,
returns 950. The 350 the source test asserts is instead the sum of the
differences between consecutive in-window records. -/
theorem total_consumption_c5_amended :
    total_consumption liqC5c.registros sucursalC5 1 3 = 950 := by decide

/-- Claim C6: over_consumption returns exactly the records, across all
branches, with strictly positive sobre_limite and fecha inside the inclusive
window, in stored order, and excludes every other record. -/
theorem over_consumption_spec (regs : List Registro) (start_date end_date : Int)
    (hw : start_date ≤ end_date) :
    (∀ r, r ∈ over_consumption regs start_date end_date ↔
        r ∈ regs ∧ 0 < r.sobre_limite ∧ start_date ≤ r.fecha ∧ r.fecha ≤ end_date)
    ∧ (over_consumption regs start_date end_date).Sublist regs := by
  constructor
  · intro r
    simp [over_consumption, List.mem_filter, and_assoc]
  · exact List.filter_sublist regs

/-- Witness for claim C6 on a two-record table. -/
theorem over_consumption_spec_witness :
    (registroC6in ∈ over_consumption regsC6 1 3 ↔
        registroC6in ∈ regsC6 ∧ 0 < registroC6in.sobre_limite
          ∧ 1 ≤ registroC6in.fecha ∧ registroC6in.fecha ≤ 3)
    ∧ (over_consumption regsC6 1 3).Sublist regsC6 :=
  ⟨(over_consumption_spec regsC6 1 3 (by decide)).1 registroC6in,
   (over_consumption_spec regsC6 1 3 (by decide)).2⟩

/-- Claim C7: when stored user names are pairwise distinct, login with the
exactly matching name and password of a stored user returns a token carrying
the fresh value, and that token is the one the post state holds for the user
(the most recently issued one); login matching no stored user fails with
AuthenticationError. -/
theorem login_spec (st : ClientState) (fresh name pw : String) :
    (st.users.Pairwise (fun u v => u.name ≠ v.name) →
      ∀ u ∈ st.users, u.name = name → u.password = pw →
        ∃ st2, login st fresh name pw
            = Except.ok ({ value := fresh, user_id := u.id }, st2)
          ∧ token_of st2 u.id = some { value := fresh, user_id := u.id })
    ∧ ((∀ u ∈ st.users, ¬(u.name = name ∧ u.password = pw)) →
        login st fresh name pw = Except.error DBError.authenticationError) := by
  constructor
  · intro hnodup u hu hname hpw
    have hpu : (fun x : User => x.name == name && x.password == pw) u = true := by
      simp [hname, hpw]
    obtain ⟨v, hv⟩ : ∃ v, st.users.find?
        (fun x => x.name == name && x.password == pw) = some v := by
      have hsome : (st.users.find?
          (fun x => x.name == name && x.password == pw)).isSome := by
        rw [List.find?_isSome]
        exact ⟨u, hu, hpu⟩
      exact Option.isSome_iff_exists.mp hsome
    have hvmem : v ∈ st.users := List.mem_of_find?_eq_some hv
    have hvp := List.find?_some hv
    simp only [Bool.and_eq_true, beq_iff_eq] at hvp
    have hvname : v.name = name := hvp.1
    have hsymm : Symmetric (fun u v : User => u.name ≠ v.name) := by
      intro a b h e
      exact h e.symm
    have huv : u = v := by
      by_contra hne
      exact hnodup.forall hsymm hu hvmem hne (hname.trans hvname.symm)
    subst huv
    refine ⟨{ st with tokens := { value := fresh, user_id := u.id }
        :: st.tokens.filter (fun tk => tk.user_id != u.id) }, ?_, ?_⟩
    · unfold login
      rw [hv]
    · unfold token_of
      apply List.find?_cons_of_pos
      simp
  · intro hnone
    have hfind : st.users.find?
        (fun x => x.name == name && x.password == pw) = none := by
      rw [List.find?_eq_none]
      intro x hx
      simp only [Bool.and_eq_true, beq_iff_eq, not_and]
      intro h1 h2
      exact hnone x hx ⟨h1, h2⟩
    unfold login
    rw [hfind]

/-- Witness for claim C7 on a one-user store: correct credentials yield the
freshly issued token, a wrong password yields AuthenticationError. -/
theorem login_spec_witness :
    (∃ st2, login stC7 "tok" "blob" "doko"
        = Except.ok ({ value := "tok", user_id := 1 }, st2)
      ∧ token_of st2 1 = some { value := "tok", user_id := 1 })
    ∧ login stC7 "tok" "blob" "wrong" = Except.error DBError.authenticationError :=
  ⟨(login_spec stC7 "tok" "blob" "doko").1 (by simp [stC7])
      { id := 1, name := "blob", password := "doko" } (by simp [stC7]) rfl rfl,
   (login_spec stC7 "tok" "blob" "wrong").2 (by decide)⟩

/-- Claim C8: create_user fails with UniquenessViolation exactly when a user
with the same name is already stored, otherwise persists and returns the new
user, and pairwise-distinct stored names stay pairwise distinct. -/
theorem create_user_spec (st : ClientState) (nid : Int) (name pw : String) :
    ((∃ u ∈ st.users, u.name = name) →
        create_user st nid name pw = Except.error DBError.uniquenessViolation)
    ∧ ((∀ u ∈ st.users, u.name ≠ name) →
        create_user st nid name pw
          = Except.ok ({ id := nid, name := name, password := pw },
              { st with users := st.users
                  ++ [{ id := nid, name := name, password := pw }] }))
    ∧ (st.users.Pairwise (fun u v => u.name ≠ v.name) →
        ∀ res st2, create_user st nid name pw = Except.ok (res, st2) →
          st2.users.Pairwise (fun u v => u.name ≠ v.name)) := by
  refine ⟨?_, ?_, ?_⟩
  · rintro ⟨u, hu, hname⟩
    have hany : st.users.any (fun x => x.name == name) = true := by
      rw [List.any_eq_true]
      exact ⟨u, hu, by simp [hname]⟩
    unfold create_user
    rw [if_pos hany]
  · intro h
    have hany : ¬ (st.users.any (fun x => x.name == name) = true) := by
      rw [List.any_eq_true]
      rintro ⟨u, hu, hbeq⟩
      exact h u hu (by simpa using hbeq)
    unfold create_user
    rw [if_neg hany]
  · intro hpair res st2 hok
    by_cases hc : st.users.any (fun x => x.name == name) = true
    · unfold create_user at hok
      rw [if_pos hc] at hok
      exact absurd hok (by simp)
    · unfold create_user at hok
      rw [if_neg hc] at hok
      simp only [Except.ok.injEq, Prod.mk.injEq] at hok
      obtain ⟨-, hst2⟩ := hok
      subst hst2
      rw [List.pairwise_append]
      refine ⟨hpair, by simp, ?_⟩
      intro a ha b hb
      simp only [List.mem_singleton] at hb
      subst hb
      rw [List.any_eq_true] at hc
      push_neg at hc
      intro heq
      exact hc a ha (by simp [heq])

/-- Witness for claim C8 on a one-user store: a duplicate name is rejected, a
fresh name is persisted, and the resulting names stay pairwise distinct. -/
theorem create_user_spec_witness :
    create_user stC8 2 "blob" "x" = Except.error DBError.uniquenessViolation
    ∧ create_user stC8 2 "alice" "pw"
        = Except.ok ({ id := 2, name := "alice", password := "pw" },
            { stC8 with users := stC8.users
                ++ [{ id := 2, name := "alice", password := "pw" }] })
    ∧ ({ stC8 with users := stC8.users
           ++ [{ id := 2, name := "alice", password := "pw" }] }
         : ClientState).users.Pairwise (fun u v => u.name ≠ v.name) :=
  ⟨(create_user_spec stC8 2 "blob" "x").1
      ⟨{ id := 1, name := "blob", password := "doko" }, by simp [stC8], rfl⟩,
   (create_user_spec stC8 2 "alice" "pw").2.1 (by decide),
   (create_user_spec stC8 2 "alice" "pw").2.2 (by simp [stC8])
      { id := 2, name := "alice", password := "pw" }
      { stC8 with users := stC8.users
          ++ [{ id := 2, name := "alice", password := "pw" }] }
      ((create_user_spec stC8 2 "alice" "pw").2.1 (by decide))⟩

/-- Claim C9: a Sucursal whose reading equals its last_reading is billed
exactly the fixed surcharge aumento. -/
theorem calculate_zero_consumption (s : Sucursal)
    (h : s.reading = s.last_reading) :
    s.calculate = s.aumento := by
  unfold Sucursal.calculate
  rw [h, sub_self, zero_mul, Int.zero_fdiv, zero_add]

/-- Witness for claim C9 at a branch with equal readings. -/
theorem calculate_zero_consumption_witness :
    sucursalC9.calculate = sucursalC9.aumento :=
  calculate_zero_consumption sucursalC9 (by decide)

/-- Claim C10: with last_reading, porciento_extra and aumento fixed and
porciento_extra nonnegative, calculate is monotonically nondecreasing in the
current reading. -/
theorem calculate_monotone (s1 s2 : Sucursal)
    (hl : s1.last_reading = s2.last_reading)
    (hp : s1.porciento_extra = s2.porciento_extra)
    (ha : s1.aumento = s2.aumento)
    (hpe : 0 ≤ s1.porciento_extra)
    (hr : s1.reading ≤ s2.reading) :
    s1.calculate ≤ s2.calculate := by
  unfold Sucursal.calculate
  rw [Int.fdiv_eq_ediv _ (by norm_num), Int.fdiv_eq_ediv _ (by norm_num)]
  rw [hl, hp, ha]
  have hmul : (s1.reading - s2.last_reading) * (100 + s2.porciento_extra)
      ≤ (s2.reading - s2.last_reading) * (100 + s2.porciento_extra) := by
    apply mul_le_mul_of_nonneg_right (by omega) (by omega)
  have hdiv := Int.ediv_le_ediv (by norm_num : (0 : Int) < 100) hmul
  omega

/-- Witness for claim C10 at two branches differing only in the reading. -/
theorem calculate_monotone_witness :
    sucursalC10a.calculate ≤ sucursalC10b.calculate :=
  calculate_monotone sucursalC10a sucursalC10b rfl rfl rfl (by decide) (by decide)

end Mange
